import Mathlib

/-!
Shallow embedding of `src/components/esp_rainmaker/src/core/esp_rmaker_core.c`
(ESP RainMaker lifecycle orchestrator and work dispatcher).

Modelling conventions:
* `esp_err_t` return codes become the inductive `EspErr`, keeping the concrete
  codes the C file returns (`ESP_OK`, `ESP_FAIL`, `ESP_ERR_NO_MEM`,
  `ESP_ERR_INVALID_ARG`, `ESP_ERR_INVALID_STATE`).
* The process-wide pointer `esp_rmaker_priv_data` becomes an explicit
  `Option PrivData` value threaded through every operation; `none` is the
  NULL pointer, and freeing the handle is returning `none`.
* External collaborators (storage, Wi-Fi driver, MQTT client, claim service,
  node data model) are out of scope per the spec; their observable results at
  each call site are fields of an `Env` oracle record.  Compile-time options
  (`CONFIG_ESP_RMAKER_SELF_CLAIM`, `CONFIG_MBEDTLS_HAVE_TIME_DATE`) are also
  `Env` fields, so one model covers both builds.
* The FreeRTOS queue of capacity `ESP_RMAKER_TASK_QUEUE_SIZE` becomes a
  `List WorkQueueEntry` together with the capacity bound; `xQueueSend` with a
  zero timeout appends iff the length is below capacity, `xQueueReceive` with
  a zero timeout pops the front iff nonempty.
* Invoking a work function is recorded by appending the entry to an execution
  log; the work functions themselves are external function pointers.
* The indefinite blocking waits in `esp_rmaker_task` (Wi-Fi ready latch, time
  sync) are modelled as completing: the claims under study concern the
  behaviour after those waits return.  The cross-thread `esp_rmaker_stop`
  write observed by the dispatch loop is modelled by a schedule of booleans,
  one per loop iteration.
-/

/-- Return codes of `esp_err_t` actually produced by the core file. -/
inductive EspErr where
  | espOk
  | espFail
  | espErrNoMem
  | espErrInvalidArg
  | espErrInvalidState
  deriving DecidableEq, Repr

/-- The enum `esp_rmaker_state_t` (lines 55-61 of the source). -/
inductive RmakerState where
  | deinit
  | initDone
  | starting
  | started
  | stopRequested
  deriving DecidableEq, Repr

/-- The struct `esp_rmaker_work_queue_entry_t`: a work function pointer and an
opaque payload pointer, both abstracted as numeric identifiers. -/
structure WorkQueueEntry where
  work_fn : Nat
  priv_data : Nat
  deriving DecidableEq, Repr

/-- The struct `esp_rmaker_priv_data_t` (lines 64-75 of the source).  The
`node` pointer and the MQTT config pointer are abstracted as numeric
identifiers; the FreeRTOS queue handle is the queue contents. -/
structure PrivData where
  node_id : Option String
  node : Option Nat
  enable_time_sync : Bool
  state : RmakerState
  mqtt_connected : Bool
  mqtt_config : Option Nat
  self_claim : Bool
  work_queue : List WorkQueueEntry
  deriving DecidableEq, Repr

/-- The struct `esp_rmaker_config_t` field used by the core. -/
structure EspRmakerConfig where
  enable_time_sync : Bool
  deriving DecidableEq, Repr

/-- Oracle for the external collaborators and compile-time configuration: each
field is the observable outcome of one collaborator call site in the core
file, or one `#ifdef` switch. -/
structure Env where
  /-- Result of `esp_rmaker_storage_init()`. -/
  storage_init_ok : Bool
  /-- Result of `esp_rmaker_storage_get("node_id")`. -/
  storage_node_id : Option String
  /-- Result of `esp_wifi_get_mac(WIFI_IF_STA, ...)`: the six MAC bytes. -/
  wifi_mac : Option (List Nat)
  /-- Whether `CONFIG_ESP_RMAKER_SELF_CLAIM` is compiled in. -/
  self_claim_cfg : Bool
  /-- Result of `esp_rmaker_self_claim_init()`. -/
  self_claim_init_ok : Bool
  /-- Result of `esp_rmaker_self_claim_perform()`. -/
  self_claim_perform_ok : Bool
  /-- Result of `esp_rmaker_get_mqtt_config()` inside `esp_rmaker_init`. -/
  get_mqtt_config : Option Nat
  /-- Result of `esp_rmaker_get_mqtt_config()` after a successful claim. -/
  get_mqtt_config_after_claim : Option Nat
  /-- Result of `esp_rmaker_mqtt_init` inside `esp_rmaker_init`. -/
  mqtt_init_ok : Bool
  /-- Result of `esp_rmaker_mqtt_init` after a successful claim. -/
  mqtt_init_after_claim_ok : Bool
  /-- Result of `esp_rmaker_mqtt_connect()`. -/
  mqtt_connect_ok : Bool
  /-- Result of `esp_rmaker_report_node_config()`. -/
  report_node_config_ok : Bool
  /-- Result of `esp_rmaker_report_node_state()`. -/
  report_node_state_ok : Bool
  /-- Result of `esp_rmaker_register_for_set_params()`. -/
  register_set_params_ok : Bool
  /-- Result of `esp_rmaker_node_create(name, type)` in `esp_rmaker_node_init`. -/
  node_create : Option Nat
  /-- Whether `calloc` for the private data succeeds. -/
  alloc_ok : Bool
  /-- Whether `xQueueCreate(ESP_RMAKER_TASK_QUEUE_SIZE, ...)` succeeds. -/
  queue_create_ok : Bool
  /-- Whether `xTaskCreate(&esp_rmaker_task, ...)` returns `pdPASS`. -/
  task_create_ok : Bool
  deriving DecidableEq, Repr

/-- The macro `ESP_RMAKER_TASK_QUEUE_SIZE` (line 40 of the source). -/
def ESP_RMAKER_TASK_QUEUE_SIZE : Nat := 8

/-- Uppercase hexadecimal digit, as produced by the `%02X` format. -/
def hexDigit (n : Nat) : Char :=
  if n < 10 then Char.ofNat (48 + n) else Char.ofNat (55 + n)

/-- Two uppercase hexadecimal digits of one byte, as produced by `%02X`. -/
def byteHex (b : Nat) : String :=
  String.mk [hexDigit ((b % 256) / 16), hexDigit (b % 16)]

/-- The `snprintf` of the six MAC bytes in `esp_rmaker_populate_node_id`. -/
def macToNodeId (mac : List Nat) : String :=
  String.join ((mac.take 6).map byteHex)

/-- Lines 79-96: node id from persisted storage, else (only when self claiming
is compiled in) derived from the station MAC address, else NULL. -/
def esp_rmaker_populate_node_id (env : Env) : Option String :=
  match env.storage_node_id with
  | some nid => some nid
  | none =>
    if env.self_claim_cfg then
      match env.wifi_mac with
      | none => none
      | some mac => some (macToNodeId mac)
    else none

/-- Lines 109-126: `esp_rmaker_deinit_priv_data` frees the queue, the MQTT
config, the node id and the handle itself; in the model every resource lives
inside the handle, so releasing is dropping the value.  Only the return code
is kept. -/
def esp_rmaker_deinit_priv_data (rmaker_priv_data : Option PrivData) : EspErr :=
  match rmaker_priv_data with
  | none => EspErr.espErrInvalidArg
  | some _ => EspErr.espOk

/-- Lines 128-144: `esp_rmaker_node_deinit`.  Returns the error code and the
new value of the global `esp_rmaker_priv_data`. -/
def esp_rmaker_node_deinit (g : Option PrivData) : EspErr × Option PrivData :=
  match g with
  | none => (EspErr.espErrInvalidArg, none)
  | some pd =>
    if pd.state ≠ RmakerState.initDone then
      (EspErr.espErrInvalidState, some pd)
    else
      (EspErr.espOk, none)

/-- Lines 146-152: `esp_rmaker_get_node_id`. -/
def esp_rmaker_get_node_id (g : Option PrivData) : Option String :=
  match g with
  | none => none
  | some pd => pd.node_id

/-- Lines 154-217: `esp_rmaker_init`.  Takes the (possibly NULL) config, the
collaborator oracle and the current global handle; returns the error code and
the new global handle.  The C code publishes the `calloc`-zeroed struct into
the global immediately and then mutates it field by field; since the function
is synchronous, the model builds the final record at the end, and every
failure path after allocation frees the handle and resets the global to NULL
exactly as `esp_rmaker_deinit_priv_data` + `esp_rmaker_priv_data = NULL` do. -/
def esp_rmaker_init (config : Option EspRmakerConfig) (env : Env)
    (g : Option PrivData) : EspErr × Option PrivData :=
  match g with
  | some pd => (EspErr.espErrInvalidState, some pd)
  | none =>
    match config with
    | none => (EspErr.espErrInvalidArg, none)
    | some cfg =>
      if ¬ env.storage_init_ok then (EspErr.espFail, none)
      else if ¬ env.alloc_ok then (EspErr.espErrNoMem, none)
      else
        match esp_rmaker_populate_node_id env with
        | none => (EspErr.espErrNoMem, none)
        | some nid =>
          if ¬ env.queue_create_ok then (EspErr.espErrNoMem, none)
          else
            match env.get_mqtt_config with
            | none =>
              if env.self_claim_cfg then
                if ¬ env.self_claim_init_ok then (EspErr.espFail, none)
                else
                  (EspErr.espOk, some {
                    node_id := some nid,
                    node := none,
                    enable_time_sync := cfg.enable_time_sync,
                    state := RmakerState.initDone,
                    mqtt_connected := false,
                    mqtt_config := none,
                    self_claim := true,
                    work_queue := [] })
              else (EspErr.espFail, none)
            | some mc =>
              if ¬ env.mqtt_init_ok then (EspErr.espFail, none)
              else
                (EspErr.espOk, some {
                  node_id := some nid,
                  node := none,
                  enable_time_sync := cfg.enable_time_sync,
                  state := RmakerState.initDone,
                  mqtt_connected := false,
                  mqtt_config := some mc,
                  self_claim := false,
                  work_queue := [] })

/-- Lines 219-232: `esp_rmaker_register_node`.  The already-registered check
precedes the NULL-argument check. -/
def esp_rmaker_register_node (node : Option Nat) (g : Option PrivData) :
    EspErr × Option PrivData :=
  match g with
  | none => (EspErr.espErrInvalidState, none)
  | some pd =>
    if pd.node.isSome then (EspErr.espErrInvalidState, some pd)
    else
      match node with
      | none => (EspErr.espErrInvalidArg, some pd)
      | some n => (EspErr.espOk, some { pd with node := some n })

/-- Lines 234-251: `esp_rmaker_node_init`, the combined entry point: init,
create the node, register it.  Returns the (possibly NULL) node pointer and
the new global handle. -/
def esp_rmaker_node_init (config : Option EspRmakerConfig) (env : Env)
    (g : Option PrivData) : Option Nat × Option PrivData :=
  let r1 := esp_rmaker_init config env g
  if r1.1 ≠ EspErr.espOk then (none, r1.2)
  else
    match env.node_create with
    | none => (none, r1.2)
    | some node =>
      let r2 := esp_rmaker_register_node (some node) r1.2
      if r2.1 ≠ EspErr.espOk then (none, r2.2)
      else (some node, r2.2)

/-- Lines 253-257: `esp_rmaker_get_node`. -/
def esp_rmaker_get_node (g : Option PrivData) : Option Nat :=
  match g with
  | none => none
  | some pd => pd.node

/-- Lines 259-270: `esp_rmaker_report_node_config_and_state`: two sequential
collaborator calls, any failure yields `ESP_FAIL`. -/
def esp_rmaker_report_node_config_and_state (env : Env) : EspErr :=
  if ¬ env.report_node_config_ok then EspErr.espFail
  else if ¬ env.report_node_state_ok then EspErr.espFail
  else EspErr.espOk

/-- Lines 357-368: `esp_rmaker_queue_work`: non-blocking `xQueueSend` with a
zero timeout into the bounded FIFO; fails with `ESP_FAIL` when full. -/
def esp_rmaker_queue_work (work_fn : Nat) (priv_data : Nat)
    (g : Option PrivData) : EspErr × Option PrivData :=
  match g with
  | none => (EspErr.espErrInvalidState, none)
  | some pd =>
    if pd.work_queue.length < ESP_RMAKER_TASK_QUEUE_SIZE then
      (EspErr.espOk,
       some { pd with work_queue := pd.work_queue ++ [⟨work_fn, priv_data⟩] })
    else (EspErr.espFail, some pd)

/-- Sequential application of `esp_rmaker_queue_work` to a list of
(work function, payload) pairs, collecting the returned codes. -/
def enqueueSeq (items : List (Nat × Nat)) (g : Option PrivData) :
    List EspErr × Option PrivData :=
  match items with
  | [] => ([], g)
  | it :: rest =>
    let r := esp_rmaker_queue_work it.1 it.2 g
    let rs := enqueueSeq rest r.2
    (r.1 :: rs.1, rs.2)

/-- The `xQueueReceive`/invoke loop of lines 286-290: pop the front entry and
invoke its work function (recorded by appending the entry to the execution
log) until the queue is empty. -/
def drainLoop (q : List WorkQueueEntry) (log : List WorkQueueEntry) :
    List WorkQueueEntry × List WorkQueueEntry :=
  match q with
  | [] => ([], log)
  | e :: rest => drainLoop rest (log ++ [e])

/-- Lines 282-291: `esp_rmaker_handle_work_queue`.  Returns the new global
handle and the execution log extended by the invoked entries. -/
def esp_rmaker_handle_work_queue (g : Option PrivData)
    (log : List WorkQueueEntry) : Option PrivData × List WorkQueueEntry :=
  match g with
  | none => (none, log)
  | some pd =>
    let r := drainLoop pd.work_queue log
    (some { pd with work_queue := r.1 }, r.2)

/-- How one run of `esp_rmaker_task` up to the dispatch loop can end:
the handle check fails; `vTaskDelete(NULL)` aborts the task mid-sequence
(lines 315, 321, 326, 333); `goto rmaker_end` after reaching STARTED
(lines 339, 343); or the dispatch loop of line 345 is entered. -/
inductive StartupOutcome where
  | noHandle
  | abortEarly (pd : PrivData)
  | gotoEnd (pd : PrivData)
  | loopEntered (pd : PrivData)
  deriving DecidableEq, Repr

/-- Lines 330-344 of `esp_rmaker_task`: connect MQTT (abort the task on
failure), set `mqtt_connected` and STARTED, then report config and state and
register the set-params handler, jumping to `rmaker_end` on failure. -/
def startupAfterConnect (env : Env) (pd : PrivData) : StartupOutcome :=
  if ¬ env.mqtt_connect_ok then StartupOutcome.abortEarly pd
  else
    let pd1 := { pd with mqtt_connected := true, state := RmakerState.started }
    if esp_rmaker_report_node_config_and_state env ≠ EspErr.espOk then
      StartupOutcome.gotoEnd pd1
    else if ¬ env.register_set_params_ok then StartupOutcome.gotoEnd pd1
    else StartupOutcome.loopEntered pd1

/-- Lines 293-344 of `esp_rmaker_task`: the startup sequencer run on the
worker context.  The Wi-Fi ready wait and the time sync wait are modelled as
completing; the self-claim block runs only when compiled in and armed. -/
def esp_rmaker_task_startup (env : Env) (g : Option PrivData) :
    StartupOutcome :=
  match g with
  | none => StartupOutcome.noHandle
  | some pd0 =>
    let pd := { pd0 with state := RmakerState.starting }
    if env.self_claim_cfg ∧ pd.self_claim then
      if ¬ env.self_claim_perform_ok then StartupOutcome.abortEarly pd
      else
        let pd1 := { pd with mqtt_config := env.get_mqtt_config_after_claim }
        match env.get_mqtt_config_after_claim with
        | none => StartupOutcome.abortEarly pd1
        | some _ =>
          if ¬ env.mqtt_init_after_claim_ok then StartupOutcome.abortEarly pd1
          else startupAfterConnect env pd1
    else startupAfterConnect env pd

/-- The `rmaker_end` label, lines 350-354: disconnect MQTT (external call),
clear `mqtt_connected`, set the state back to INIT_DONE. -/
def rmaker_end (pd : PrivData) : PrivData :=
  { pd with mqtt_connected := false, state := RmakerState.initDone }

/-- Lines 345-349 plus the `rmaker_end` exit: the dispatch loop.  Each
iteration first checks the state; if STOP_REQUESTED was observed the loop
falls through to `rmaker_end`, otherwise it drains the work queue and sleeps.
The cross-thread writes of `esp_rmaker_stop` are modelled by the `stops`
schedule: entry i tells whether stop was requested during iteration i.
`fuel` bounds the number of iterations modelled; `none` means the loop was
still running when the fuel ran out. -/
def esp_rmaker_dispatch_loop (fuel : Nat) (stops : List Bool) (pd : PrivData)
    (log : List WorkQueueEntry) : Option (PrivData × List WorkQueueEntry) :=
  if pd.state = RmakerState.stopRequested then some (rmaker_end pd, log)
  else
    match fuel with
    | 0 => none
    | f + 1 =>
      let r := drainLoop pd.work_queue log
      let pdDrained := { pd with work_queue := r.1 }
      let pdNext :=
        match stops with
        | [] => pdDrained
        | b :: _ =>
          if b then { pdDrained with state := RmakerState.stopRequested }
          else pdDrained
      esp_rmaker_dispatch_loop f stops.tail pdNext r.2

/-- The whole of `esp_rmaker_task` (lines 293-355): startup sequencer, then
either task deletion (leaving the handle as the sequencer left it), the
`rmaker_end` teardown, or the dispatch loop.  Returns the final global handle
and execution log, or `none` when the loop outlived the fuel. -/
def esp_rmaker_task (env : Env) (stops : List Bool) (fuel : Nat)
    (g : Option PrivData) (log : List WorkQueueEntry) :
    Option (Option PrivData × List WorkQueueEntry) :=
  match esp_rmaker_task_startup env g with
  | StartupOutcome.noHandle => some (none, log)
  | StartupOutcome.abortEarly pd => some (some pd, log)
  | StartupOutcome.gotoEnd pd => some (some (rmaker_end pd), log)
  | StartupOutcome.loopEntered pd =>
    (esp_rmaker_dispatch_loop fuel stops pd log).map
      (fun r => (some r.1, r.2))

/-- Lines 371-384: `esp_rmaker_start`.  Spawns the worker task (whose run is
modelled separately by `esp_rmaker_task`); the handle itself is not
modified. -/
def esp_rmaker_start (env : Env) (g : Option PrivData) :
    EspErr × Option PrivData :=
  match g with
  | none => (EspErr.espErrInvalidState, none)
  | some pd =>
    if ¬ env.task_create_ok then (EspErr.espFail, some pd)
    else (EspErr.espOk, some pd)

/-- Lines 386-391: `esp_rmaker_stop`: requires a handle, sets
STOP_REQUESTED. -/
def esp_rmaker_stop (g : Option PrivData) : EspErr × Option PrivData :=
  match g with
  | none => (EspErr.espErrInvalidState, none)
  | some pd =>
    (EspErr.espOk, some { pd with state := RmakerState.stopRequested })

/-! Concrete fixtures used by witnesses and counterexamples. -/

/-- A freshly initialised handle: state INIT_DONE, no node registered, empty
work queue, as `esp_rmaker_init` leaves the handle on success. -/
def pdFreshInit : PrivData :=
  { node_id := some "AABBCC112233",
    node := none,
    enable_time_sync := false,
    state := RmakerState.initDone,
    mqtt_connected := false,
    mqtt_config := some 1,
    self_claim := false,
    work_queue := [] }

/-- A handle mid-startup: state STARTING, as the worker task sets it. -/
def pdStarting : PrivData :=
  { pdFreshInit with node := some 1, state := RmakerState.starting }

/-- A handle on which stop was requested. -/
def pdStopReq : PrivData :=
  { pdFreshInit with node := some 1, state := RmakerState.stopRequested }

/-- A collaborator oracle in which every external call succeeds
(non-self-claim build, persisted identity and MQTT config available). -/
def envBase : Env :=
  { storage_init_ok := true,
    storage_node_id := some "node1234",
    wifi_mac := none,
    self_claim_cfg := false,
    self_claim_init_ok := true,
    self_claim_perform_ok := true,
    get_mqtt_config := some 1,
    get_mqtt_config_after_claim := some 2,
    mqtt_init_ok := true,
    mqtt_init_after_claim_ok := true,
    mqtt_connect_ok := true,
    report_node_config_ok := true,
    report_node_state_ok := true,
    register_set_params_ok := true,
    node_create := some 1,
    alloc_ok := true,
    queue_create_ok := true,
    task_create_ok := true }

/-- The oracle of `envBase` with a failing `esp_rmaker_mqtt_connect`. -/
def envConnectFail : Env := { envBase with mqtt_connect_ok := false }

/-- The oracle of `envBase` with a failing `esp_rmaker_report_node_config`. -/
def envReportFail : Env := { envBase with report_node_config_ok := false }

/-- The oracle of `envBase` with no persisted identity and no MQTT config
(the not-provisioned scenario in a build without self claiming). -/
def envNoProvision : Env :=
  { envBase with storage_node_id := none, get_mqtt_config := none }

/-- The oracle of `envBase` with a failing `esp_rmaker_node_create`. -/
def envNodeCreateFail : Env := { envBase with node_create := none }

/-! Claim theorems. -/

/-- C1: whenever the process-wide handle already exists, `esp_rmaker_init`
returns `ESP_ERR_INVALID_STATE` (the "already initialised" failure the spec
names AlreadyInitialized) and leaves the existing handle untouched, for every
config argument and every collaborator behaviour. -/
theorem c1_second_initialize_fails (config : Option EspRmakerConfig)
    (env : Env) (pd : PrivData) :
    esp_rmaker_init config env (some pd) =
      (EspErr.espErrInvalidState, some pd) := rfl

/-- C2: on a handle with no node registered, `esp_rmaker_register_node` with
a present node stores the reference and returns `ESP_OK`; once a node is
registered, every further call returns `ESP_ERR_INVALID_STATE` (the failure
the spec names AlreadyRegistered) regardless of its argument, leaving the
handle, including the stored node, unchanged. -/
theorem c2_register_node_exactly_once (pd : PrivData) (n : Nat) :
    (pd.node = none →
      esp_rmaker_register_node (some n) (some pd) =
        (EspErr.espOk, some { pd with node := some n })) ∧
    (∀ arg : Option Nat, pd.node.isSome →
      esp_rmaker_register_node arg (some pd) =
        (EspErr.espErrInvalidState, some pd)) := by
  constructor
  · intro h
    simp [esp_rmaker_register_node, h]
  · intro arg h
    simp [esp_rmaker_register_node, h]

/-- Witness for C2 at a concrete fresh handle: the first registration
succeeds and a second one (with a different argument) fails, changing
nothing. -/
theorem c2_register_node_exactly_once_witness :
    esp_rmaker_register_node (some 1) (some pdFreshInit) =
      (EspErr.espOk, some { pdFreshInit with node := some 1 }) ∧
    esp_rmaker_register_node (some 2)
        (some { pdFreshInit with node := some 1 }) =
      (EspErr.espErrInvalidState, some { pdFreshInit with node := some 1 }) :=
  ⟨(c2_register_node_exactly_once pdFreshInit 1).1 rfl,
   (c2_register_node_exactly_once { pdFreshInit with node := some 1 } 2).2
     (some 2) rfl⟩

/-- C5: `esp_rmaker_stop` on any existing handle returns `ESP_OK` and sets
the state to STOP_REQUESTED; calling it again on the resulting handle
returns `ESP_OK` with the exact same handle, so the second call has no
effect beyond the first. -/
theorem c5_stop_idempotent (pd : PrivData) :
    esp_rmaker_stop (some pd) =
      (EspErr.espOk, some { pd with state := RmakerState.stopRequested }) ∧
    esp_rmaker_stop (some { pd with state := RmakerState.stopRequested }) =
      (EspErr.espOk, some { pd with state := RmakerState.stopRequested }) :=
  ⟨rfl, rfl⟩

/-- The drain loop pops every entry in order, invoking each (appending it to
the execution log), and ends with the queue empty. -/
theorem drainLoop_eq (q log : List WorkQueueEntry) :
    drainLoop q log = ([], log ++ q) := by
  induction q generalizing log with
  | nil => simp [drainLoop]
  | cons e rest ih => simp [drainLoop, ih]

/-- C8: one round of `esp_rmaker_handle_work_queue` invokes every currently
queued item in FIFO enqueue order (the execution log is extended by exactly
the queue contents, in order) and returns with the work queue empty. -/
theorem c8_drain_fifo_to_exhaustion (pd : PrivData)
    (log : List WorkQueueEntry) :
    esp_rmaker_handle_work_queue (some pd) log =
      (some { pd with work_queue := [] }, log ++ pd.work_queue) := by
  simp [esp_rmaker_handle_work_queue, drainLoop_eq]

/-- While the capacity is not exceeded, every enqueue succeeds and the items
are appended in order. -/
theorem enqueueSeq_all_ok (items : List (Nat × Nat)) (pd : PrivData)
    (h : pd.work_queue.length + items.length ≤ ESP_RMAKER_TASK_QUEUE_SIZE) :
    enqueueSeq items (some pd) =
      (List.replicate items.length EspErr.espOk,
       some { pd with work_queue :=
         pd.work_queue ++ items.map (fun it => ⟨it.1, it.2⟩) }) := by
  induction items generalizing pd with
  | nil => simp [enqueueSeq]
  | cons it rest ih =>
    have hlt : pd.work_queue.length < ESP_RMAKER_TASK_QUEUE_SIZE := by
      simp only [List.length_cons] at h
      omega
    have hstep : esp_rmaker_queue_work it.1 it.2 (some pd) =
        (EspErr.espOk,
         some { pd with work_queue := pd.work_queue ++ [⟨it.1, it.2⟩] }) := by
      simp [esp_rmaker_queue_work, hlt]
    have hrec := ih { pd with work_queue := pd.work_queue ++ [⟨it.1, it.2⟩] }
      (by simp only [List.length_append, List.length_cons,
            List.length_nil] at h ⊢; omega)
    simp [enqueueSeq, hstep, hrec, List.replicate_succ]

/-- Sequential enqueues compose by list append. -/
theorem enqueueSeq_append (l1 l2 : List (Nat × Nat)) (g : Option PrivData) :
    enqueueSeq (l1 ++ l2) g =
      ((enqueueSeq l1 g).1 ++ (enqueueSeq l2 (enqueueSeq l1 g).2).1,
       (enqueueSeq l2 (enqueueSeq l1 g).2).2) := by
  induction l1 generalizing g with
  | nil => simp [enqueueSeq]
  | cons it rest ih => simp [enqueueSeq, ih]

/-- A single enqueue on a full queue fails with `ESP_FAIL` immediately. -/
theorem enqueueSeq_one_full (it : Nat × Nat) (pd : PrivData)
    (h : ¬ pd.work_queue.length < ESP_RMAKER_TASK_QUEUE_SIZE) :
    (enqueueSeq [it] (some pd)).1 = [EspErr.espFail] := by
  simp [enqueueSeq, esp_rmaker_queue_work, h]

/-- C3: starting from a handle whose work queue is empty, a run of
`ESP_RMAKER_TASK_QUEUE_SIZE + 1` calls to `esp_rmaker_queue_work` with no
intervening drain returns `ESP_OK` for each of the first
`ESP_RMAKER_TASK_QUEUE_SIZE` (= 8) enqueues and `ESP_FAIL` (the queue-full
failure the spec names ResourceExhaustion/QueueFull) for the last one; the
`xQueueSend` timeout of 0 means no call ever waits. -/
theorem c3_enqueue_first_n_ok_then_full (pd : PrivData)
    (items : List (Nat × Nat)) (hq : pd.work_queue = [])
    (hlen : items.length = ESP_RMAKER_TASK_QUEUE_SIZE + 1) :
    (enqueueSeq items (some pd)).1 =
      List.replicate ESP_RMAKER_TASK_QUEUE_SIZE EspErr.espOk ++
        [EspErr.espFail] := by
  have hsplit : items.take ESP_RMAKER_TASK_QUEUE_SIZE ++
      items.drop ESP_RMAKER_TASK_QUEUE_SIZE = items :=
    List.take_append_drop _ items
  have htake : (items.take ESP_RMAKER_TASK_QUEUE_SIZE).length =
      ESP_RMAKER_TASK_QUEUE_SIZE := by
    rw [List.length_take, hlen]
    omega
  have hdroplen : (items.drop ESP_RMAKER_TASK_QUEUE_SIZE).length = 1 := by
    simp [List.length_drop, hlen]
  obtain ⟨it9, hdrop⟩ := List.length_eq_one.mp hdroplen
  have hfirst := enqueueSeq_all_ok (items.take ESP_RMAKER_TASK_QUEUE_SIZE) pd
    (by rw [hq, htake]; simp)
  calc (enqueueSeq items (some pd)).1
      = (enqueueSeq (items.take ESP_RMAKER_TASK_QUEUE_SIZE ++
          items.drop ESP_RMAKER_TASK_QUEUE_SIZE) (some pd)).1 := by
        rw [hsplit]
    _ = List.replicate ESP_RMAKER_TASK_QUEUE_SIZE EspErr.espOk ++
        [EspErr.espFail] := by
        rw [enqueueSeq_append, hfirst, hdrop, htake]
        dsimp only
        congr 1
        apply enqueueSeq_one_full
        simp [hq, List.length_map, htake]
        omega

/-- Witness for C3: nine concrete enqueues on a concrete fresh handle. -/
theorem c3_enqueue_witness :
    (enqueueSeq [(1, 1), (2, 2), (3, 3), (4, 4), (5, 5), (6, 6), (7, 7),
        (8, 8), (9, 9)] (some pdFreshInit)).1 =
      List.replicate ESP_RMAKER_TASK_QUEUE_SIZE EspErr.espOk ++
        [EspErr.espFail] :=
  c3_enqueue_first_n_ok_then_full pdFreshInit _ rfl rfl

/-- C4 counterexample: with no handle in existence (a state in which State is
not Initialized), `esp_rmaker_node_deinit` fails with `ESP_ERR_INVALID_ARG`
(InvalidArgument), not with `ESP_ERR_INVALID_STATE` (InvalidState) as the
claim states. -/
theorem c4_deinit_no_handle_counterexample :
    esp_rmaker_node_deinit none = (EspErr.espErrInvalidArg, none) ∧
    EspErr.espErrInvalidArg ≠ EspErr.espErrInvalidState :=
  ⟨rfl, by decide⟩

/-- C4 amended: `esp_rmaker_node_deinit` fails with `ESP_ERR_INVALID_ARG`
when no handle exists; it fails with `ESP_ERR_INVALID_STATE`, releasing
nothing, whenever a handle exists whose state is not INIT_DONE (including the
window in which the worker task holds STARTING or STARTED); when the state is
INIT_DONE it releases the node, the work queue, the MQTT config, the node id
and the handle, leaving the process-wide reference empty. -/
theorem c4_deinit_amended (pd : PrivData) :
    esp_rmaker_node_deinit none = (EspErr.espErrInvalidArg, none) ∧
    (pd.state ≠ RmakerState.initDone →
      esp_rmaker_node_deinit (some pd) =
        (EspErr.espErrInvalidState, some pd)) ∧
    (pd.state = RmakerState.initDone →
      esp_rmaker_node_deinit (some pd) = (EspErr.espOk, none)) := by
  refine ⟨rfl, ?_, ?_⟩ <;> intro h <;> simp [esp_rmaker_node_deinit, h]

/-- Witness for the amended C4 at two concrete handles: one mid-startup
(deinit refused, handle untouched) and one freshly initialised (deinit
succeeds and empties the reference). -/
theorem c4_deinit_amended_witness :
    esp_rmaker_node_deinit (some pdStarting) =
      (EspErr.espErrInvalidState, some pdStarting) ∧
    esp_rmaker_node_deinit (some pdFreshInit) = (EspErr.espOk, none) :=
  ⟨(c4_deinit_amended pdStarting).2.1 (by decide),
   (c4_deinit_amended pdFreshInit).2.2 rfl⟩

/-- Every failing run of `esp_rmaker_init` from an empty global reference
leaves the global reference empty: each failure path after allocation calls
`esp_rmaker_deinit_priv_data` and resets the global to NULL. -/
theorem init_failure_leaves_none (config : Option EspRmakerConfig)
    (env : Env) (h : (esp_rmaker_init config env none).1 ≠ EspErr.espOk) :
    (esp_rmaker_init config env none).2 = none := by
  unfold esp_rmaker_init at h ⊢
  cases config with
  | none => simp
  | some cfg =>
    by_cases h1 : env.storage_init_ok <;>
      by_cases h2 : env.alloc_ok <;>
      cases hp : esp_rmaker_populate_node_id env <;>
      by_cases h3 : env.queue_create_ok <;>
      cases hm : env.get_mqtt_config <;>
      by_cases h4 : env.self_claim_cfg <;>
      by_cases h5 : env.self_claim_init_ok <;>
      by_cases h6 : env.mqtt_init_ok <;>
      simp_all

/-- On every successful run of `esp_rmaker_init` from an empty global
reference, the resulting handle has no node registered and state
INIT_DONE. -/
theorem init_ok_shape (config : Option EspRmakerConfig) (env : Env)
    (h : (esp_rmaker_init config env none).1 = EspErr.espOk) :
    ∃ pd, esp_rmaker_init config env none = (EspErr.espOk, some pd) ∧
      pd.node = none ∧ pd.state = RmakerState.initDone := by
  unfold esp_rmaker_init at h ⊢
  cases config with
  | none => simp_all
  | some cfg =>
    by_cases h1 : env.storage_init_ok <;>
      by_cases h2 : env.alloc_ok <;>
      cases hp : esp_rmaker_populate_node_id env <;>
      by_cases h3 : env.queue_create_ok <;>
      cases hm : env.get_mqtt_config <;>
      by_cases h4 : env.self_claim_cfg <;>
      by_cases h5 : env.self_claim_init_ok <;>
      by_cases h6 : env.mqtt_init_ok <;>
      simp_all

/-- C9: in a build without self claiming, when no identity is persisted and
no MQTT config is available, `esp_rmaker_init` (called with a present config,
working storage and working allocation) fails and the failure is atomic: the
global handle reference is left empty, exactly as if the call had never
happened.  The concrete code signals the missing identity as
`ESP_ERR_NO_MEM` with the log asking the user to perform claiming; this is
the site the spec labels NotProvisioned.  The second conjunct is the general
atomicity fact for every failing initialisation. -/
theorem c9_init_not_provisioned_atomic (cfg : EspRmakerConfig) (env : Env)
    (hstorage : env.storage_init_ok = true) (halloc : env.alloc_ok = true)
    (hid : env.storage_node_id = none) (hsc : env.self_claim_cfg = false)
    (hmc : env.get_mqtt_config = none) :
    (esp_rmaker_init (some cfg) env none = (EspErr.espErrNoMem, none) ∧
      EspErr.espErrNoMem ≠ EspErr.espOk) ∧
    (∀ (config2 : Option EspRmakerConfig) (env2 : Env),
      (esp_rmaker_init config2 env2 none).1 ≠ EspErr.espOk →
      (esp_rmaker_init config2 env2 none).2 = none) := by
  refine ⟨⟨?_, by decide⟩, fun config2 env2 => init_failure_leaves_none config2 env2⟩
  simp [esp_rmaker_init, esp_rmaker_populate_node_id, hstorage, halloc,
    hid, hsc, hmc]

/-- Witness for C9 at a concrete oracle with no persisted identity and no
MQTT config in a non-self-claim build. -/
theorem c9_init_not_provisioned_atomic_witness :
    (esp_rmaker_init (some ⟨false⟩) envNoProvision none =
        (EspErr.espErrNoMem, none) ∧
      EspErr.espErrNoMem ≠ EspErr.espOk) ∧
    (∀ (config2 : Option EspRmakerConfig) (env2 : Env),
      (esp_rmaker_init config2 env2 none).1 ≠ EspErr.espOk →
      (esp_rmaker_init config2 env2 none).2 = none) :=
  c9_init_not_provisioned_atomic ⟨false⟩ envNoProvision rfl rfl rfl rfl rfl

/-- C10: whenever `esp_rmaker_init` inside `esp_rmaker_node_init` succeeds
but the combined entry point still returns NULL (node creation failed; a
registration failure is the other abort point of the code), the handle
remains allocated with state INIT_DONE and no node registered, and every
later call to `esp_rmaker_node_init` returns NULL without touching the
handle, because the inner `esp_rmaker_init` fails with the
already-initialised `ESP_ERR_INVALID_STATE`. -/
theorem c10_node_init_not_atomic (config : Option EspRmakerConfig)
    (env : Env)
    (hinit : (esp_rmaker_init config env none).1 = EspErr.espOk)
    (hfail : (esp_rmaker_node_init config env none).1 = none) :
    ∃ pd, (esp_rmaker_node_init config env none).2 = some pd ∧
      pd.state = RmakerState.initDone ∧ pd.node = none ∧
      ∀ (config2 : Option EspRmakerConfig) (env2 : Env),
        esp_rmaker_node_init config2 env2 (some pd) = (none, some pd) := by
  obtain ⟨pd0, hpair, hnode, hstate⟩ := init_ok_shape config env hinit
  refine ⟨pd0, ?_, hstate, hnode, ?_⟩
  · cases hc : env.node_create with
    | none => simp [esp_rmaker_node_init, hpair, hc]
    | some n =>
      exfalso
      have : (esp_rmaker_node_init config env none).1 = some n := by
        simp [esp_rmaker_node_init, hpair, hc, esp_rmaker_register_node,
          hnode]
      simp [hfail] at this
  · intro config2 env2
    simp [esp_rmaker_node_init, esp_rmaker_init]

/-- Witness for C10: a concrete oracle in which everything succeeds except
`esp_rmaker_node_create`. -/
theorem c10_node_init_not_atomic_witness :
    ∃ pd, (esp_rmaker_node_init (some ⟨false⟩) envNodeCreateFail none).2 =
        some pd ∧
      pd.state = RmakerState.initDone ∧ pd.node = none ∧
      ∀ (config2 : Option EspRmakerConfig) (env2 : Env),
        esp_rmaker_node_init config2 env2 (some pd) = (none, some pd) :=
  c10_node_init_not_atomic (some ⟨false⟩) envNodeCreateFail rfl rfl

/-- C7: whenever the startup sequence aborts via `vTaskDelete(NULL)` — claim
perform failure, missing MQTT config after claiming, MQTT init failure after
claiming, or MQTT connect failure — the worker leaves the handle with state
STARTING (never restored to INIT_DONE) and `mqtt_connected` still false, and
a subsequent `esp_rmaker_start` call (which never touches the state) finds
that same handle. -/
theorem c7_startup_failure_leaves_starting (env : Env) (pd0 : PrivData)
    (hmc : pd0.mqtt_connected = false)
    (hfail :
      (env.self_claim_cfg ∧ pd0.self_claim ∧
        env.self_claim_perform_ok = false) ∨
      (env.self_claim_cfg ∧ pd0.self_claim ∧ env.self_claim_perform_ok ∧
        env.get_mqtt_config_after_claim = none) ∨
      (env.self_claim_cfg ∧ pd0.self_claim ∧ env.self_claim_perform_ok ∧
        env.get_mqtt_config_after_claim ≠ none ∧
        env.mqtt_init_after_claim_ok = false) ∨
      (env.mqtt_connect_ok = false ∧
        (env.self_claim_cfg ∧ pd0.self_claim →
          env.self_claim_perform_ok ∧
          env.get_mqtt_config_after_claim ≠ none ∧
          env.mqtt_init_after_claim_ok))) :
    ∃ pd1, esp_rmaker_task_startup env (some pd0) =
        StartupOutcome.abortEarly pd1 ∧
      pd1.state = RmakerState.starting ∧ pd1.mqtt_connected = false ∧
      (esp_rmaker_start env (some pd1)).2 = some pd1 := by
  have hstart : ∀ pd1 : PrivData,
      (esp_rmaker_start env (some pd1)).2 = some pd1 := by
    intro pd1
    by_cases h : env.task_create_ok <;> simp [esp_rmaker_start, h]
  rcases hfail with ⟨h1, h2, h3⟩ | ⟨h1, h2, h3, h4⟩ |
    ⟨h1, h2, h3, h4, h5⟩ | ⟨h1, h2⟩
  · refine ⟨{ pd0 with state := RmakerState.starting }, ?_, rfl, hmc, hstart _⟩
    simp [esp_rmaker_task_startup, h1, h2, h3]
  · refine ⟨{ pd0 with state := RmakerState.starting, mqtt_config := none }, ?_, rfl, hmc, hstart _⟩
    simp [esp_rmaker_task_startup, h1, h2, h3, h4]
  · obtain ⟨mc, hmc4⟩ := Option.ne_none_iff_exists'.mp h4
    refine ⟨{ pd0 with state := RmakerState.starting, mqtt_config := some mc }, ?_, rfl, hmc, hstart _⟩
    simp [esp_rmaker_task_startup, h1, h2, h3, h5, hmc4]
  · by_cases harm : env.self_claim_cfg ∧ pd0.self_claim
    · obtain ⟨hperf, hcfg, hinit2⟩ := h2 harm
      obtain ⟨mc, hmc4⟩ := Option.ne_none_iff_exists'.mp hcfg
      refine ⟨{ pd0 with state := RmakerState.starting, mqtt_config := some mc }, ?_, rfl, hmc, hstart _⟩
      simp [esp_rmaker_task_startup, startupAfterConnect, harm.1, harm.2,
        hperf, hinit2, hmc4, h1]
    · refine ⟨{ pd0 with state := RmakerState.starting }, ?_, rfl, hmc, hstart _⟩
      simp only [esp_rmaker_task_startup]
      rw [if_neg (by simpa using harm)]
      simp [startupAfterConnect, h1]

/-- Witness for C7 at a concrete handle and an oracle whose
`esp_rmaker_mqtt_connect` fails in a non-self-claim build. -/
theorem c7_startup_failure_leaves_starting_witness :
    ∃ pd1, esp_rmaker_task_startup envConnectFail (some pdFreshInit) =
        StartupOutcome.abortEarly pd1 ∧
      pd1.state = RmakerState.starting ∧ pd1.mqtt_connected = false ∧
      (esp_rmaker_start envConnectFail (some pd1)).2 = some pd1 :=
  c7_startup_failure_leaves_starting envConnectFail pdFreshInit rfl
    (by decide)

/-- A handle as it stands just before `esp_rmaker_start`: initialised with a
node registered. -/
def pdC6start : PrivData := { pdFreshInit with node := some 1 }

/-- The handle of `pdC6start` as the worker leaves it right after setting
STARTED (MQTT connected). -/
def pdC6started : PrivData :=
  { pdC6start with state := RmakerState.started, mqtt_connected := true }

/-- The dispatch loop can only return by observing STOP_REQUESTED and then
running the `rmaker_end` teardown on the observed handle. -/
theorem dispatch_loop_exit_shape (fuel : Nat) :
    ∀ (stops : List Bool) (pd : PrivData) (log : List WorkQueueEntry)
      (pd2 : PrivData) (log2 : List WorkQueueEntry),
      esp_rmaker_dispatch_loop fuel stops pd log = some (pd2, log2) →
      ∃ pdExit, pdExit.state = RmakerState.stopRequested ∧
        pd2 = rmaker_end pdExit := by
  induction fuel with
  | zero =>
    intro stops pd log pd2 log2 h
    by_cases hst : pd.state = RmakerState.stopRequested
    · rw [esp_rmaker_dispatch_loop.eq_def] at h
      simp only [hst, if_true, Option.some.injEq, Prod.mk.injEq] at h
      exact ⟨pd, hst, h.1.symm⟩
    · rw [esp_rmaker_dispatch_loop.eq_def] at h
      simp [hst] at h
  | succ f ih =>
    intro stops pd log pd2 log2 h
    by_cases hst : pd.state = RmakerState.stopRequested
    · rw [esp_rmaker_dispatch_loop.eq_def] at h
      simp only [hst, if_true, Option.some.injEq, Prod.mk.injEq] at h
      exact ⟨pd, hst, h.1.symm⟩
    · rw [esp_rmaker_dispatch_loop.eq_def] at h
      simp only [hst, if_false, ite_false] at h
      exact ih _ _ _ _ _ h

/-- C6 counterexample: with an oracle whose `esp_rmaker_report_node_config`
fails, a start run reaches STARTED (the state machine transition of a
successful start) and then the task returns the state to INIT_DONE through
the `goto rmaker_end` teardown although STOP_REQUESTED never held and the
dispatch loop was never entered; so the stop-triggered teardown is not the
only path back to INIT_DONE after a successful start. -/
theorem c6_stop_only_path_counterexample :
    esp_rmaker_task_startup envReportFail (some pdC6start) =
      StartupOutcome.gotoEnd pdC6started ∧
    pdC6started.state = RmakerState.started ∧
    esp_rmaker_task envReportFail [] 0 (some pdC6start) [] =
      some (some (rmaker_end pdC6started), []) ∧
    (rmaker_end pdC6started).state = RmakerState.initDone ∧
    pdC6started.state ≠ RmakerState.stopRequested :=
  ⟨rfl, rfl, rfl, rfl, by decide⟩

/-- C6 amended: when the dispatch loop observes STOP_REQUESTED it exits at
once and performs the teardown (MQTT disconnected, `mqtt_connected` false,
state INIT_DONE); observing STOP_REQUESTED is the only way the dispatch loop
returns, so it is the only path back to INIT_DONE once the loop has been
entered — but the same teardown also runs, without any stop request, when
node reporting or set-params registration fails right after the state
reached STARTED. -/
theorem c6_loop_teardown_amended (pd : PrivData) (fuel : Nat)
    (stops : List Bool) (log : List WorkQueueEntry) :
    (pd.state = RmakerState.stopRequested →
      esp_rmaker_dispatch_loop fuel stops pd log =
        some (rmaker_end pd, log) ∧
      (rmaker_end pd).mqtt_connected = false ∧
      (rmaker_end pd).state = RmakerState.initDone) ∧
    (∀ (pd2 : PrivData) (log2 : List WorkQueueEntry),
      esp_rmaker_dispatch_loop fuel stops pd log = some (pd2, log2) →
      ∃ pdExit, pdExit.state = RmakerState.stopRequested ∧
        pd2 = rmaker_end pdExit) := by
  constructor
  · intro h
    refine ⟨?_, rfl, rfl⟩
    rw [esp_rmaker_dispatch_loop.eq_def]
    simp [h]
  · exact dispatch_loop_exit_shape fuel stops pd log

/-- Witness for the amended C6: a concrete stopped handle makes the loop
exit immediately with the teardown applied. -/
theorem c6_loop_teardown_amended_witness :
    esp_rmaker_dispatch_loop 0 [] pdStopReq [] =
      some (rmaker_end pdStopReq, []) ∧
    (rmaker_end pdStopReq).mqtt_connected = false ∧
    (rmaker_end pdStopReq).state = RmakerState.initDone :=
  (c6_loop_teardown_amended pdStopReq 0 [] []).1 rfl
